import Mathlib

/-!
Shallow embedding of the Insta-Voice-Assistant backend
(`backend/db_driver.py`, `backend/api.py`, `backend/token_service.py`).

Remote services (the Supabase store, the OpenAI embedding endpoint, the
Firebase verifier, the LiveKit signer) are modelled as oracles: each remote
call is a function supplied as a parameter whose outcome is either the
response's data payload or a raised exception.  Python dictionaries are
modelled as association lists with Python truthiness made explicit; float
vectors are modelled with an opaque scalar (`Int`), since no verified
property inspects vector arithmetic.
-/

namespace InstaVoice

/-- A Python value stored in a record field: a string or an embedding vector. -/
inductive Val where
  | str (s : String)
  | vec (v : List Int)
deriving DecidableEq, Repr

/-- A Python dict (string keys).  Keys are unique in every dict the code
builds; lookups take the first match. -/
abbrev Dict := List (String × Val)

/-- Python truthiness of a value (`bool(v)`). -/
def Val.truthy : Val → Bool
  | .str s => !s.isEmpty
  | .vec v => !v.isEmpty

/-- `str(v)` as used by f-string interpolation. -/
def Val.render : Val → String
  | .str s => s
  | .vec v => toString v

/-- `d.get(k)` — first binding of `k`, if any. -/
def dictLookup : Dict → String → Option Val
  | [], _ => none
  | (k', v) :: rest, k => if k' == k then some v else dictLookup rest k

/-- `d.get(k, default)`. -/
def dictGetD (d : Dict) (k : String) (dflt : Val) : Val :=
  (dictLookup d k).getD dflt

/-- `d[k] = v`: replace the first binding of `k` in place, else append. -/
def dictInsert : Dict → String → Val → Dict
  | [], k, v => [(k, v)]
  | (k', v') :: rest, k, v =>
    if k' == k then (k, v) :: rest else (k', v') :: dictInsert rest k v

/-- `d.update(m)`: bindings of `m`, in order, overwrite those of `d`. -/
def dictUpdate (d m : Dict) : Dict :=
  m.foldl (fun acc kv => dictInsert acc kv.1 kv.2) d

/-- Python truthiness of a dict (`bool(d)`): nonempty. -/
def dictTruthy (d : Dict) : Bool := !d.isEmpty

/-- Python truthiness of an `Optional[Dict]` (`None` and `{}` are falsy). -/
def optDictTruthy : Option Dict → Bool
  | none => false
  | some d => dictTruthy d

/-- Python truthiness of an `Optional[str]` (`None` and `""` are falsy). -/
def optStrTruthy : Option String → Bool
  | none => false
  | some s => !s.isEmpty

/-- Outcome of one remote call: the response's `.data` payload, or the call
raised an exception carrying a message. -/
inductive Remote (α : Type) where
  | ok (data : α)
  | exn (msg : String)
deriving DecidableEq, Repr

/-- Oracle for the Supabase client handle: one field per remote operation the
driver performs.
* `user_profiles_select uid` — `table('user_profiles').select(...).eq('user_id', uid).maybe_single().execute()`; its data is a row dict or `None`.
* `match_knowledge_articles emb count threshold` — `rpc('match_knowledge_articles', …).execute()`; its data is a list of article dicts.
* `knowledge_articles_insert row` — `table('knowledge_articles').insert(row).execute()`.
* `interaction_summaries_insert row` — `table('interaction_summaries').insert(row).execute()`. -/
structure SupabaseClient where
  user_profiles_select : String → Remote (Option Dict)
  match_knowledge_articles : List Int → Nat → Rat → Remote (List Dict)
  knowledge_articles_insert : Dict → Remote (List Dict)
  interaction_summaries_insert : Dict → Remote (List Dict)

/-- Oracle for the OpenAI client handle: `embeddings.create(input, model)`
returning `response.data[0].embedding` or raising. -/
structure OpenAIClient where
  embeddings_create : String → Remote (List Int)

/-- `class DBDriverError(Exception)`. -/
structure DBDriverError where
  msg : String
deriving DecidableEq, Repr

/-- `db_driver.get_user_account_info_from_db(user_id)`.  The module-level
`supabase` handle is passed explicitly (`none` = never initialized). -/
def get_user_account_info_from_db (supabase : Option SupabaseClient)
    (user_id : String) : Except DBDriverError (Option Dict) :=
  match supabase with
  | none =>
    .error ⟨"Supabase client not initialized. Cannot fetch user info."⟩
  | some client =>
    match client.user_profiles_select user_id with
    | .ok data =>
      if optDictTruthy data then .ok data else .ok none
    | .exn e =>
      .error ⟨"Error fetching user account info for " ++ user_id ++
        " from Supabase: " ++ e⟩

/-- Python `not text.strip()`: the string is empty after stripping
whitespace, i.e. every character is whitespace. -/
def pyStripEmpty (s : String) : Bool :=
  s.toList.all Char.isWhitespace

/-- `text.replace("\x00", "")`. -/
def stripNulls (s : String) : String :=
  String.mk (s.toList.filter (fun c => c ≠ Char.ofNat 0))

/-- `db_driver.generate_embedding(text)`, instrumented: the second component
counts outbound calls to the embedding API (0 or 1). -/
def generate_embedding_run (openai_client : Option OpenAIClient)
    (text : String) : Option (List Int) × Nat :=
  match openai_client with
  | none => (none, 0)
  | some client =>
    if text.isEmpty || pyStripEmpty text then (none, 0)
    else
      let processed_text := stripNulls text
      match client.embeddings_create processed_text with
      | .ok emb => (some emb, 1)
      | .exn _ => (none, 1)

/-- `db_driver.generate_embedding(text)`: the returned value. -/
def generate_embedding (openai_client : Option OpenAIClient)
    (text : String) : Option (List Int) :=
  (generate_embedding_run openai_client text).1

/-- `db_driver.query_knowledge_base(query_text, top_k=3)`.  The Python
`if not query_embedding` guard is falsy for both `None` and `[]`. -/
def query_knowledge_base (supabase : Option SupabaseClient)
    (openai_client : Option OpenAIClient) (query_text : String)
    (top_k : Nat) : Option (List Dict) :=
  match supabase with
  | none => none
  | some client =>
    match generate_embedding openai_client query_text with
    | none => none
    | some query_embedding =>
      if query_embedding.isEmpty then none
      else
        match client.match_knowledge_articles query_embedding top_k
            ((7 : Rat) / 10) with
        | .ok data => if data.isEmpty then none else some data
        | .exn _ => none

/-- `db_driver.store_knowledge_base_article(title, content, metadata=None)`,
instrumented: the second component logs the row of each attempted insert
(so `[]` means the insert was never attempted). -/
def store_knowledge_base_article_run (supabase : Option SupabaseClient)
    (openai_client : Option OpenAIClient) (title content : String)
    (metadata : Option Dict) : Bool × List Dict :=
  match supabase with
  | none => (false, [])
  | some client =>
    match generate_embedding openai_client content with
    | none => (false, [])
    | some embedding =>
      if embedding.isEmpty then (false, [])
      else
        let article_data : Dict :=
          [("title", .str title), ("content", .str content),
           ("embedding", .vec embedding)]
        let article_data :=
          match metadata with
          | some m => if dictTruthy m then dictUpdate article_data m
                      else article_data
          | none => article_data
        match client.knowledge_articles_insert article_data with
        | .ok data => (!data.isEmpty, [article_data])
        | .exn _ => (false, [article_data])

/-- `db_driver.store_knowledge_base_article`: the returned boolean. -/
def store_knowledge_base_article (supabase : Option SupabaseClient)
    (openai_client : Option OpenAIClient) (title content : String)
    (metadata : Option Dict) : Bool :=
  (store_knowledge_base_article_run supabase openai_client title content
    metadata).1

/-- `db_driver.save_interaction_summary(user_id, session_id, summary_text)`,
instrumented with the rows of attempted inserts. -/
def save_interaction_summary_run (supabase : Option SupabaseClient)
    (user_id session_id summary_text : String) : Bool × List Dict :=
  match supabase with
  | none => (false, [])
  | some client =>
    let row : Dict :=
      [("user_id", .str user_id), ("session_id", .str session_id),
       ("summary", .str summary_text)]
    match client.interaction_summaries_insert row with
    | .ok data => (!data.isEmpty, [row])
    | .exn _ => (false, [row])

/-- `db_driver.save_interaction_summary`: the returned boolean. -/
def save_interaction_summary (supabase : Option SupabaseClient)
    (user_id session_id summary_text : String) : Bool :=
  (save_interaction_summary_run supabase user_id session_id summary_text).1

/-! ### Tool layer (`backend/api.py`) -/

/-- `api.get_user_account_info(ctx)`; `user_id` stands for
`ctx.participant.identity`.  The `try/except DBDriverError` of the source is
the `Except` case split. -/
def get_user_account_info (supabase : Option SupabaseClient)
    (user_id : String) : String :=
  match get_user_account_info_from_db supabase user_id with
  | .ok account_info =>
    if optDictTruthy account_info then
      let d := account_info.getD []
      let nm := (dictGetD d "full_name" (Val.str "N/A")).render
      let em := (dictGetD d "email" (Val.str "N/A")).render
      let tier := (dictGetD d "subscription_tier" (Val.str "N/A")).render
      "Okay, I found these details for user " ++ user_id ++ ":\nName: " ++
        nm ++ "\nEmail: " ++ em ++ "\nSubscription: " ++ tier
    else
      "I couldn't find any account details for user ID: " ++ user_id ++
        ". Please ensure the ID is correct or if you need to register."
  | .error _ =>
    "Sorry, I encountered an issue trying to retrieve account details for user ID: "
      ++ user_id ++ ". Please try again later."

/-- The `"Title: …\nContent: …"` block the source computes (identically) in
both the single-result and the multi-result branch of
`answer_from_company_kb`. -/
def kb_block (article : Dict) : String :=
  let title := (dictGetD article "title" (Val.str "N/A")).render
  let content :=
    (dictGetD article "content" (Val.str "No content available.")).render
  "Title: " ++ title ++ "\nContent: " ++ content

/-- `api.answer_from_company_kb(ctx, query)`.  `if not articles` is falsy for
both `None` and the empty list, hence the `getD []`.  The source's
`except DBDriverError` branch is unreachable: `query_knowledge_base` never
raises, so it is not modelled. -/
def answer_from_company_kb (supabase : Option SupabaseClient)
    (openai_client : Option OpenAIClient) (query : String) : String :=
  let articles :=
    (query_knowledge_base supabase openai_client query 3).getD []
  match articles with
  | [] =>
    "I couldn't find specific information about that in our knowledge base. Could you try rephrasing, or is there something else I can help with?"
  | [article] =>
    "I found this in our knowledge base:\n\n" ++ kb_block article
  | _ :: _ :: _ =>
    let formatted_articles := articles.map kb_block
    let response_header :=
      "Here's what I found in our knowledge base related to your query:\n\n"
    let articles_string := String.intercalate "\n\n---\n\n" formatted_articles
    response_header ++ articles_string

/-- `api.summarize_interaction_for_next_session(ctx, interaction_summary)`;
`user_id`/`session_id` stand for the context's participant identity and room
sid. -/
def summarize_interaction_for_next_session (supabase : Option SupabaseClient)
    (user_id session_id interaction_summary : String) : String :=
  if save_interaction_summary supabase user_id session_id interaction_summary
  then
    "Okay, I've made a note of that for next time."
  else
    "I tried to save a note of our conversation, but there was an issue. Please try again later if it's important."

/-! ### Token service (`backend/token_service.py`) -/

/-- `class HTTPException(status_code, detail)` as raised by the endpoint. -/
structure HTTPException where
  status_code : Nat
  detail : String
deriving DecidableEq, Repr

/-- Request body of `POST /generate-livekit-token`. -/
structure TokenRequest where
  firebase_id_token : String
  room_name : String
deriving DecidableEq, Repr

/-- Outcome of `auth.verify_id_token`: decoded claims dict, a raised
`InvalidIdTokenError`, or any other exception. -/
inductive VerifyResult where
  | ok (decoded : Dict)
  | invalid_id_token (msg : String)
  | other_exn (msg : String)

/-- `verify_firebase_token(token_request)`: the Firebase verifier is the
oracle `auth_verify_id_token`. -/
def verify_firebase_token (auth_verify_id_token : String → VerifyResult)
    (token_request : TokenRequest) : Except HTTPException Dict :=
  match auth_verify_id_token token_request.firebase_id_token with
  | .ok decoded_token => .ok decoded_token
  | .invalid_id_token _ => .error ⟨401, "Invalid Firebase ID token"⟩
  | .other_exn e =>
    .error ⟨500, "Error verifying Firebase ID token: " ++ e⟩

/-- `livekit.api.VideoGrants(room_join, room, can_publish, can_subscribe)`. -/
structure VideoGrants where
  room_join : Bool
  room : String
  can_publish : Bool
  can_subscribe : Bool
deriving DecidableEq, Repr

/-- The builder state of `livekit.api.AccessToken`. -/
structure AccessToken where
  api_key : String
  api_secret : String
  identity : Option Val
  name : Option Val
  grants : Option VideoGrants

/-- `AccessToken(api_key=…, api_secret=…)`. -/
def AccessToken.new (api_key api_secret : String) : AccessToken :=
  ⟨api_key, api_secret, none, none, none⟩

/-- `.with_identity(i)`. -/
def AccessToken.with_identity (t : AccessToken) (i : Val) : AccessToken :=
  ⟨t.api_key, t.api_secret, some i, t.name, t.grants⟩

/-- `.with_name(n)`. -/
def AccessToken.with_name (t : AccessToken) (n : Val) : AccessToken :=
  ⟨t.api_key, t.api_secret, t.identity, some n, t.grants⟩

/-- `.with_grants(g)`. -/
def AccessToken.with_grants (t : AccessToken) (g : VideoGrants) : AccessToken :=
  ⟨t.api_key, t.api_secret, t.identity, t.name, some g⟩

/-- The claims a signed LiveKit JWT embeds; signing itself is external, so the
token is modelled by exactly what `.to_jwt()` serialises from the builder. -/
structure Jwt where
  identity : Option Val
  name : Option Val
  grants : Option VideoGrants
deriving DecidableEq, Repr

/-- `.to_jwt()`. -/
def AccessToken.to_jwt (t : AccessToken) : Jwt :=
  ⟨t.identity, t.name, t.grants⟩

/-- Success body of `POST /generate-livekit-token`. -/
structure TokenResponse where
  livekit_token : Jwt
  user_id : Val
deriving DecidableEq, Repr

/-- `generate_livekit_token_endpoint(token_request)`.  The
`Depends(verify_firebase_token)` dependency runs first, so its
`HTTPException` propagates before the handler body.  The module-level
`LIVEKIT_API_KEY`/`LIVEKIT_API_SECRET` are passed explicitly; the source
computes `participant_name` just before the `uid` guard, unconditionally and
with the same value as here. -/
def generate_livekit_token_endpoint (LIVEKIT_API_KEY : Option String)
    (LIVEKIT_API_SECRET : Option String)
    (auth_verify_id_token : String → VerifyResult)
    (token_request : TokenRequest) : Except HTTPException TokenResponse :=
  match verify_firebase_token auth_verify_id_token token_request with
  | .error e => .error e
  | .ok decoded_firebase_token =>
    if !optStrTruthy LIVEKIT_API_KEY || !optStrTruthy LIVEKIT_API_SECRET then
      .error ⟨500, "LiveKit API key/secret not configured on server."⟩
    else
      match dictLookup decoded_firebase_token "uid" with
      | none => .error ⟨400, "UID not found in Firebase token."⟩
      | some firebase_uid =>
        if !firebase_uid.truthy then
          .error ⟨400, "UID not found in Firebase token."⟩
        else
          let participant_name :=
            match dictLookup decoded_firebase_token "name" with
            | some v => if v.truthy then v else firebase_uid
            | none => firebase_uid
          let video_grants_obj : VideoGrants :=
            ⟨true, token_request.room_name, true, true⟩
          let token_builder :=
            AccessToken.new (LIVEKIT_API_KEY.getD "")
              (LIVEKIT_API_SECRET.getD "")
          let jwt_string :=
            (((token_builder.with_identity firebase_uid).with_name
              participant_name).with_grants video_grants_obj).to_jwt
          .ok ⟨jwt_string, firebase_uid⟩

/-! ### Theorems -/

/-- C1: with the store handle initialized and the remote lookup returning zero
rows, `get_user_account_info_from_db` returns the not-found sentinel (`none`)
and does not raise; it raises the typed `DBDriverError` exactly when the
handle is uninitialized or the remote call raises (a non-raising lookup always
yields an `ok` result). -/
theorem c1_account_lookup_error_discipline
    (supabase : Option SupabaseClient) (user_id : String) :
    (∀ client, supabase = some client →
        client.user_profiles_select user_id = Remote.ok none →
        get_user_account_info_from_db supabase user_id = Except.ok none) ∧
    (supabase = none →
        ∃ m, get_user_account_info_from_db supabase user_id =
          Except.error m) ∧
    (∀ client e, supabase = some client →
        client.user_profiles_select user_id = Remote.exn e →
        ∃ m, get_user_account_info_from_db supabase user_id =
          Except.error m) ∧
    (∀ client data, supabase = some client →
        client.user_profiles_select user_id = Remote.ok data →
        ∃ r, get_user_account_info_from_db supabase user_id = Except.ok r) := by
  refine ⟨?_, ?_, ?_, ?_⟩
  · rintro client rfl h
    simp [get_user_account_info_from_db, h, optDictTruthy]
  · rintro rfl
    exact ⟨_, rfl⟩
  · rintro client e rfl h
    exact ⟨⟨"Error fetching user account info for " ++ user_id ++
      " from Supabase: " ++ e⟩, by simp [get_user_account_info_from_db, h]⟩
  · rintro client data rfl h
    cases hd : optDictTruthy data
    · exact ⟨none, by simp [get_user_account_info_from_db, h, hd]⟩
    · exact ⟨data, by simp [get_user_account_info_from_db, h, hd]⟩

/-- Witness for C1 at a concrete client whose lookup returns zero rows, and a
concrete uninitialized handle. -/
theorem c1_account_lookup_error_discipline_witness :
    get_user_account_info_from_db
        (some ⟨fun _ => Remote.ok none, fun _ _ _ => Remote.ok [],
          fun _ => Remote.ok [], fun _ => Remote.ok []⟩) "user_404" =
      Except.ok none ∧
    (∃ m, get_user_account_info_from_db none "user_404" = Except.error m) := by
  constructor
  · exact (c1_account_lookup_error_discipline _ "user_404").1 _ rfl rfl
  · exact (c1_account_lookup_error_discipline none "user_404").2.1 rfl

/-- C2: in `query_knowledge_base`, an uninitialized store handle and a failed
embedding (the `None` case as well as the falsy empty vector) all yield the
same no-results outcome `none`; the return type has no raised-error case, so
no driver error distinguishes them. -/
theorem c2_kb_preconditions_collapse
    (supabase : Option SupabaseClient) (openai_client : Option OpenAIClient)
    (query_text : String) (top_k : Nat) :
    (supabase = none →
        query_knowledge_base supabase openai_client query_text top_k =
          none) ∧
    (generate_embedding openai_client query_text = none →
        query_knowledge_base supabase openai_client query_text top_k =
          none) ∧
    (generate_embedding openai_client query_text = some [] →
        query_knowledge_base supabase openai_client query_text top_k =
          none) := by
  refine ⟨?_, ?_, ?_⟩
  · rintro rfl
    rfl
  · intro h
    cases supabase with
    | none => rfl
    | some client => simp [query_knowledge_base, h]
  · intro h
    cases supabase with
    | none => rfl
    | some client => simp [query_knowledge_base, h]

/-- Witness for C2: uninitialized store, and an initialized store with an
unconfigured embedding client (embedding fails), both yield `none`. -/
theorem c2_kb_preconditions_collapse_witness :
    query_knowledge_base none (some ⟨fun _ => Remote.ok [1]⟩)
        "refund policy" 3 = none ∧
    (generate_embedding none "refund policy" = none ∧
      query_knowledge_base
        (some ⟨fun _ => Remote.ok none, fun _ _ _ => Remote.ok [],
          fun _ => Remote.ok [], fun _ => Remote.ok []⟩)
        none "refund policy" 3 = none) := by
  refine ⟨?_, rfl, ?_⟩
  · exact (c2_kb_preconditions_collapse none _ "refund policy" 3).1 rfl
  · exact (c2_kb_preconditions_collapse _ none "refund policy" 3).2.1 rfl

/-- C5: `generate_embedding` returns no vector and performs zero outbound
calls to the embedding API on empty or whitespace-only input; it also returns
`none` when the client is not configured or when the remote call raises. -/
theorem c5_generate_embedding_failures
    (openai_client : Option OpenAIClient) (text : String) :
    (pyStripEmpty text = true →
        generate_embedding_run openai_client text = (none, 0)) ∧
    generate_embedding none text = none ∧
    (∀ client e, openai_client = some client →
        client.embeddings_create (stripNulls text) = Remote.exn e →
        generate_embedding openai_client text = none) := by
  refine ⟨?_, rfl, ?_⟩
  · intro h
    cases openai_client with
    | none => rfl
    | some client => simp [generate_embedding_run, h]
  · rintro client e rfl h
    by_cases hw : text.isEmpty || pyStripEmpty text
    · simp [generate_embedding, generate_embedding_run, hw]
    · simp [generate_embedding, generate_embedding_run, hw, h]

/-- Witness for C5 at a whitespace-only input against a live client (zero
calls), and at a raising client on nonempty input. -/
theorem c5_generate_embedding_failures_witness :
    (pyStripEmpty "  \t " = true ∧
      generate_embedding_run (some ⟨fun _ => Remote.ok [1, 2]⟩) "  \t " =
        (none, 0)) ∧
    generate_embedding (some ⟨fun _ => Remote.exn "rate limited"⟩)
        "hello" = none := by
  refine ⟨⟨by decide, ?_⟩, ?_⟩
  · exact (c5_generate_embedding_failures
      (some ⟨fun _ => Remote.ok [1, 2]⟩) "  \t ").1 (by decide)
  · exact (c5_generate_embedding_failures _ "hello").2.2 _ "rate limited"
      rfl rfl

/-- C3: for every found record, the tool layer formats the fixed summary with
`dict.get`-style "N/A" defaults for the name, email and tier fields; a field
absent from the record therefore renders as "N/A". -/
theorem c3_account_info_formatting
    (supabase : Option SupabaseClient) (user_id : String) :
    (∀ client d, supabase = some client →
        client.user_profiles_select user_id = Remote.ok (some d) →
        dictTruthy d = true →
        get_user_account_info supabase user_id =
          "Okay, I found these details for user " ++ user_id ++ ":\nName: " ++
            (dictGetD d "full_name" (Val.str "N/A")).render ++ "\nEmail: " ++
            (dictGetD d "email" (Val.str "N/A")).render ++
            "\nSubscription: " ++
            (dictGetD d "subscription_tier" (Val.str "N/A")).render) ∧
    (∀ (d : Dict) (k : String), dictLookup d k = none →
        (dictGetD d k (Val.str "N/A")).render = "N/A") := by
  constructor
  · rintro client d rfl hsel hd
    simp [get_user_account_info, get_user_account_info_from_db, hsel,
      optDictTruthy, hd]
  · intro d k h
    simp [dictGetD, h, Val.render]

/-- Witness for C3: the spec's scenario — user `user_exists_123` with the
given three-field record formats to the exact expected string — plus a record
missing `full_name` rendering "N/A". -/
theorem c3_account_info_formatting_witness :
    get_user_account_info
        (some ⟨fun _ => Remote.ok (some
            [("email", Val.str "real_user@example.com"),
             ("full_name", Val.str "Real User"),
             ("subscription_tier", Val.str "Gold Tier")]),
          fun _ _ _ => Remote.ok [], fun _ => Remote.ok [],
          fun _ => Remote.ok []⟩) "user_exists_123" =
      "Okay, I found these details for user user_exists_123:\nName: Real User\nEmail: real_user@example.com\nSubscription: Gold Tier" ∧
    (dictGetD [("email", Val.str "e@x.com")] "full_name"
        (Val.str "N/A")).render = "N/A" := by
  constructor
  · exact ((c3_account_info_formatting
      (some ⟨fun _ => Remote.ok (some
          [("email", Val.str "real_user@example.com"),
           ("full_name", Val.str "Real User"),
           ("subscription_tier", Val.str "Gold Tier")]),
        fun _ _ _ => Remote.ok [], fun _ => Remote.ok [],
        fun _ => Remote.ok []⟩) "user_exists_123").1 _
      [("email", Val.str "real_user@example.com"),
       ("full_name", Val.str "Real User"),
       ("subscription_tier", Val.str "Gold Tier")]
      rfl rfl rfl).trans (by decide)
  · exact (c3_account_info_formatting none "user_exists_123").2
      [("email", Val.str "e@x.com")] "full_name" (by decide)

/-- C4: the tool layer formats an empty or absent KB result as the
apology-with-rephrase message, a single article as one Title/Content block,
and two or more articles as the header followed by the blocks joined by the
literal separator, in input order. -/
theorem c4_kb_formatting
    (supabase : Option SupabaseClient) (openai_client : Option OpenAIClient)
    (query : String) :
    (query_knowledge_base supabase openai_client query 3 = none →
        answer_from_company_kb supabase openai_client query =
          "I couldn't find specific information about that in our knowledge base. Could you try rephrasing, or is there something else I can help with?") ∧
    (query_knowledge_base supabase openai_client query 3 = some [] →
        answer_from_company_kb supabase openai_client query =
          "I couldn't find specific information about that in our knowledge base. Could you try rephrasing, or is there something else I can help with?") ∧
    (∀ a, query_knowledge_base supabase openai_client query 3 = some [a] →
        answer_from_company_kb supabase openai_client query =
          "I found this in our knowledge base:\n\n" ++ kb_block a) ∧
    (∀ L, query_knowledge_base supabase openai_client query 3 = some L →
        2 ≤ L.length →
        answer_from_company_kb supabase openai_client query =
          "Here's what I found in our knowledge base related to your query:\n\n"
            ++ String.intercalate "\n\n---\n\n" (L.map kb_block)) := by
  refine ⟨?_, ?_, ?_, ?_⟩
  · intro h
    simp [answer_from_company_kb, h]
  · intro h
    simp [answer_from_company_kb, h]
  · intro a h
    simp [answer_from_company_kb, h]
  · intro L h hlen
    match L, hlen with
    | a :: b :: rest, _ =>
      simp [answer_from_company_kb, h]

/-- Witness for C4: a concrete store returning two articles formats as the
header plus the two blocks joined by the separator, in order; a store whose
search returns nothing formats as the apology. -/
theorem c4_kb_formatting_witness :
    answer_from_company_kb
        (some ⟨fun _ => Remote.ok none,
          fun _ _ _ => Remote.ok
            [[("title", Val.str "T1"), ("content", Val.str "C1")],
             [("title", Val.str "T2"), ("content", Val.str "C2")]],
          fun _ => Remote.ok [], fun _ => Remote.ok []⟩)
        (some ⟨fun _ => Remote.ok [1]⟩) "refunds" =
      "Here's what I found in our knowledge base related to your query:\n\nTitle: T1\nContent: C1\n\n---\n\nTitle: T2\nContent: C2" ∧
    answer_from_company_kb
        (some ⟨fun _ => Remote.ok none, fun _ _ _ => Remote.ok [],
          fun _ => Remote.ok [], fun _ => Remote.ok []⟩)
        (some ⟨fun _ => Remote.ok [1]⟩) "refunds" =
      "I couldn't find specific information about that in our knowledge base. Could you try rephrasing, or is there something else I can help with?" := by
  constructor
  · exact ((c4_kb_formatting
      (some ⟨fun _ => Remote.ok none,
        fun _ _ _ => Remote.ok
          [[("title", Val.str "T1"), ("content", Val.str "C1")],
           [("title", Val.str "T2"), ("content", Val.str "C2")]],
        fun _ => Remote.ok [], fun _ => Remote.ok []⟩)
      (some ⟨fun _ => Remote.ok [1]⟩) "refunds").2.2.2
      [[("title", Val.str "T1"), ("content", Val.str "C1")],
       [("title", Val.str "T2"), ("content", Val.str "C2")]]
      rfl (by decide)).trans (by decide)
  · exact (c4_kb_formatting
      (some ⟨fun _ => Remote.ok none, fun _ _ _ => Remote.ok [],
        fun _ => Remote.ok [], fun _ => Remote.ok []⟩)
      (some ⟨fun _ => Remote.ok [1]⟩) "refunds").1 rfl

/-- C6: both insert operations return a boolean and never propagate an
exception: `store_knowledge_base_article` returns `false` without attempting
the insert when the store is uninitialized or the embedding fails;
`save_interaction_summary` returns `false` when the store is uninitialized;
any exception during either insert becomes `false`; success is exactly
"insert response contains rows"; and an empty summary string is accepted and
inserted without validation. -/
theorem c6_insert_error_discipline
    (supabase : Option SupabaseClient) (openai_client : Option OpenAIClient)
    (title content user_id session_id summary_text : String)
    (metadata : Option Dict) :
    (supabase = none →
        store_knowledge_base_article_run supabase openai_client title content
          metadata = (false, []) ∧
        save_interaction_summary_run supabase user_id session_id
          summary_text = (false, [])) ∧
    (generate_embedding openai_client content = none →
        store_knowledge_base_article_run supabase openai_client title content
          metadata = (false, [])) ∧
    (∀ client e, supabase = some client →
        (∀ row, client.knowledge_articles_insert row = Remote.exn e) →
        store_knowledge_base_article supabase openai_client title content
          metadata = false) ∧
    (∀ client rows emb, supabase = some client →
        generate_embedding openai_client content = some emb → emb ≠ [] →
        (∀ row, client.knowledge_articles_insert row = Remote.ok rows) →
        store_knowledge_base_article supabase openai_client title content
          metadata = !rows.isEmpty) ∧
    (∀ client e, supabase = some client →
        client.interaction_summaries_insert
          [("user_id", Val.str user_id), ("session_id", Val.str session_id),
           ("summary", Val.str summary_text)] = Remote.exn e →
        save_interaction_summary supabase user_id session_id summary_text =
          false) ∧
    (∀ client rows, supabase = some client →
        client.interaction_summaries_insert
          [("user_id", Val.str user_id), ("session_id", Val.str session_id),
           ("summary", Val.str summary_text)] = Remote.ok rows →
        save_interaction_summary_run supabase user_id session_id
          summary_text =
          (!rows.isEmpty,
           [[("user_id", Val.str user_id), ("session_id", Val.str session_id),
             ("summary", Val.str summary_text)]])) := by
  refine ⟨?_, ?_, ?_, ?_, ?_, ?_⟩
  · rintro rfl
    exact ⟨rfl, rfl⟩
  · intro h
    cases supabase with
    | none => rfl
    | some client => simp [store_knowledge_base_article_run, h]
  · rintro client e rfl hins
    cases he : generate_embedding openai_client content with
    | none =>
      simp [store_knowledge_base_article, store_knowledge_base_article_run,
        he]
    | some emb =>
      cases hemb : emb.isEmpty
      · simp [store_knowledge_base_article, store_knowledge_base_article_run,
          he, hemb, hins]
      · simp [store_knowledge_base_article, store_knowledge_base_article_run,
          he, hemb]
  · rintro client rows emb rfl he hne hins
    have hemb : emb.isEmpty = false := by
      cases emb with
      | nil => exact absurd rfl hne
      | cons a t => rfl
    simp [store_knowledge_base_article, store_knowledge_base_article_run,
      he, hemb, hins]
  · rintro client e rfl hins
    simp [save_interaction_summary, save_interaction_summary_run, hins]
  · rintro client rows rfl hins
    simp [save_interaction_summary_run, hins]

/-- Witness for C6: a concrete raising insert yields `false`; a concrete
successful insert of one row yields `true`; the empty summary string is
inserted as-is; nothing is attempted without a store handle. -/
theorem c6_insert_error_discipline_witness :
    store_knowledge_base_article
        (some ⟨fun _ => Remote.ok none, fun _ _ _ => Remote.ok [],
          fun _ => Remote.exn "network down", fun _ => Remote.ok []⟩)
        (some ⟨fun _ => Remote.ok [1]⟩) "T" "C" none = false ∧
    store_knowledge_base_article
        (some ⟨fun _ => Remote.ok none, fun _ _ _ => Remote.ok [],
          fun _ => Remote.ok [[("id", Val.str "7")]],
          fun _ => Remote.ok []⟩)
        (some ⟨fun _ => Remote.ok [1]⟩) "T" "C" none = true ∧
    save_interaction_summary_run
        (some ⟨fun _ => Remote.ok none, fun _ _ _ => Remote.ok [],
          fun _ => Remote.ok [], fun _ => Remote.ok [[("id", Val.str "9")]]⟩)
        "u1" "s1" "" =
      (true, [[("user_id", Val.str "u1"), ("session_id", Val.str "s1"),
        ("summary", Val.str "")]]) ∧
    store_knowledge_base_article_run none (some ⟨fun _ => Remote.ok [1]⟩)
        "T" "C" none = (false, []) := by
  refine ⟨?_, ?_, ?_, ?_⟩
  · exact (c6_insert_error_discipline
      (some ⟨fun _ => Remote.ok none, fun _ _ _ => Remote.ok [],
        fun _ => Remote.exn "network down", fun _ => Remote.ok []⟩)
      (some ⟨fun _ => Remote.ok [1]⟩) "T" "C" "u1" "s1" "" none).2.2.1 _
      "network down" rfl (fun _ => rfl)
  · exact (c6_insert_error_discipline
      (some ⟨fun _ => Remote.ok none, fun _ _ _ => Remote.ok [],
        fun _ => Remote.ok [[("id", Val.str "7")]], fun _ => Remote.ok []⟩)
      (some ⟨fun _ => Remote.ok [1]⟩) "T" "C" "u1" "s1" "" none).2.2.2.1 _
      [[("id", Val.str "7")]] [1] rfl rfl (by decide) (fun _ => rfl)
  · exact (c6_insert_error_discipline
      (some ⟨fun _ => Remote.ok none, fun _ _ _ => Remote.ok [],
        fun _ => Remote.ok [], fun _ => Remote.ok [[("id", Val.str "9")]]⟩)
      (some ⟨fun _ => Remote.ok [1]⟩) "T" "C" "u1" "s1" "" none).2.2.2.2.2 _
      [[("id", Val.str "9")]] rfl rfl
  · exact ((c6_insert_error_discipline none (some ⟨fun _ => Remote.ok [1]⟩)
      "T" "C" "u1" "s1" "" none).1 rfl).1

/-- Looking up the inserted key finds the inserted value. -/
theorem dictLookup_dictInsert_self (d : Dict) (k : String) (v : Val) :
    dictLookup (dictInsert d k v) k = some v := by
  induction d with
  | nil => simp [dictInsert, dictLookup]
  | cons p rest ih =>
    by_cases h : p.1 = k
    · simp [dictInsert, h, dictLookup]
    · simp [dictInsert, h, dictLookup, ih]

/-- Inserting one key leaves lookups of other keys unchanged. -/
theorem dictLookup_dictInsert_ne (d : Dict) (k k' : String) (v : Val)
    (h : k' ≠ k) :
    dictLookup (dictInsert d k v) k' = dictLookup d k' := by
  induction d with
  | nil => simp [dictInsert, dictLookup, Ne.symm h]
  | cons p rest ih =>
    by_cases hp : p.1 = k
    · subst hp
      simp [dictInsert, dictLookup, Ne.symm h]
    · simp [dictInsert, hp, dictLookup, ih]

/-- Updating with bindings that avoid `k` leaves the lookup of `k`
unchanged. -/
theorem dictLookup_dictUpdate_notMem (m : Dict) (d : Dict) (k : String)
    (h : ∀ p ∈ m, p.1 ≠ k) :
    dictLookup (dictUpdate d m) k = dictLookup d k := by
  induction m generalizing d with
  | nil => rfl
  | cons p rest ih =>
    have hstep : dictUpdate d (p :: rest) =
        dictUpdate (dictInsert d p.1 p.2) rest := rfl
    rw [hstep, ih (dictInsert d p.1 p.2)
      (fun q hq => h q (List.mem_cons_of_mem p hq))]
    exact dictLookup_dictInsert_ne d p.1 k p.2
      (Ne.symm (h p (List.mem_cons_self p rest)))

/-- Updating with a duplicate-free dict binding `k ↦ v` makes the lookup of
`k` yield `v`. -/
theorem dictLookup_dictUpdate_mem (m : Dict) (d : Dict) (k : String)
    (v : Val) (hnodup : (m.map Prod.fst).Nodup)
    (h : dictLookup m k = some v) :
    dictLookup (dictUpdate d m) k = some v := by
  induction m generalizing d with
  | nil => simp [dictLookup] at h
  | cons p rest ih =>
    have hstep : dictUpdate d (p :: rest) =
        dictUpdate (dictInsert d p.1 p.2) rest := rfl
    rw [List.map_cons, List.nodup_cons] at hnodup
    by_cases hp : p.1 = k
    · have hv : p.2 = v := by
        simpa [dictLookup, hp] using h
      have hrest : ∀ q ∈ rest, q.1 ≠ k := by
        intro q hq hqk
        exact hnodup.1 (hp ▸ hqk ▸ List.mem_map_of_mem Prod.fst hq)
      subst hp
      subst hv
      rw [hstep, dictLookup_dictUpdate_notMem rest (dictInsert d p.1 p.2)
        p.1 hrest]
      exact dictLookup_dictInsert_self d p.1 p.2
    · have hrest : dictLookup rest k = some v := by
        simpa [dictLookup, hp] using h
      rw [hstep]
      exact ih (dictInsert d p.1 p.2) hnodup.2 hrest

/-- C9: in `store_knowledge_base_article`, the metadata map is merged with a
plain dict update after title, content and embedding are set, so a metadata
binding for "title", "content", "embedding" (or any other key) silently
overwrites the argument-derived field of the inserted record. -/
theorem c9_metadata_overwrites_fields
    (supabase : Option SupabaseClient) (openai_client : Option OpenAIClient)
    (title content : String) (m : Dict) (client : SupabaseClient)
    (emb : List Int) (hs : supabase = some client)
    (he : generate_embedding openai_client content = some emb)
    (hne : emb ≠ []) (hm : dictTruthy m = true) :
    (store_knowledge_base_article_run supabase openai_client title content
        (some m)).2 =
      [dictUpdate [("title", Val.str title), ("content", Val.str content),
        ("embedding", Val.vec emb)] m] ∧
    ((m.map Prod.fst).Nodup → ∀ k v, dictLookup m k = some v →
        dictLookup (dictUpdate [("title", Val.str title),
          ("content", Val.str content), ("embedding", Val.vec emb)] m) k =
          some v) := by
  subst hs
  have hemb : emb.isEmpty = false := by
    cases emb with
    | nil => exact absurd rfl hne
    | cons a t => rfl
  constructor
  · cases hins : client.knowledge_articles_insert
      (dictUpdate [("title", Val.str title), ("content", Val.str content),
        ("embedding", Val.vec emb)] m) with
    | ok rows =>
      simp [store_knowledge_base_article_run, he, hemb, hm, hins]
    | exn e =>
      simp [store_knowledge_base_article_run, he, hemb, hm, hins]
  · intro hnodup k v hk
    exact dictLookup_dictUpdate_mem m _ k v hnodup hk

/-- Witness for C9: metadata `{"title": "Override"}` overwrites the `title`
argument "Original" in the record handed to the insert. -/
theorem c9_metadata_overwrites_fields_witness :
    (store_knowledge_base_article_run
        (some ⟨fun _ => Remote.ok none, fun _ _ _ => Remote.ok [],
          fun _ => Remote.ok [], fun _ => Remote.ok []⟩)
        (some ⟨fun _ => Remote.ok [1]⟩) "Original" "Body"
        (some [("title", Val.str "Override")])).2 =
      [dictUpdate [("title", Val.str "Original"),
        ("content", Val.str "Body"), ("embedding", Val.vec [1])]
        [("title", Val.str "Override")]] ∧
    dictLookup (dictUpdate [("title", Val.str "Original"),
        ("content", Val.str "Body"), ("embedding", Val.vec [1])]
        [("title", Val.str "Override")]) "title" =
      some (Val.str "Override") := by
  have h := c9_metadata_overwrites_fields
    (some ⟨fun _ => Remote.ok none, fun _ _ _ => Remote.ok [],
      fun _ => Remote.ok [], fun _ => Remote.ok []⟩)
    (some ⟨fun _ => Remote.ok [1]⟩) "Original" "Body"
    [("title", Val.str "Override")] _ [1] rfl rfl (by decide) rfl
  exact ⟨h.1, h.2 (by decide) "title" (Val.str "Override") rfl⟩

/-- C10: in the knowledge-base answer formatting (used by both the
single-result and multi-result branches), a missing `title` field defaults to
"N/A" while a missing `content` field defaults to the distinct
"No content available."; the single branch renders one block and the multi
branch one block per article. -/
theorem c10_kb_field_defaults
    (supabase : Option SupabaseClient) (openai_client : Option OpenAIClient)
    (query : String) (a : Dict) :
    (dictLookup a "title" = none →
        kb_block a = "Title: N/A\nContent: " ++
          (dictGetD a "content" (Val.str "No content available.")).render) ∧
    (dictLookup a "content" = none →
        kb_block a = "Title: " ++
          (dictGetD a "title" (Val.str "N/A")).render ++
          "\nContent: " ++ "No content available.") ∧
    (query_knowledge_base supabase openai_client query 3 = some [a] →
        answer_from_company_kb supabase openai_client query =
          "I found this in our knowledge base:\n\n" ++ kb_block a) ∧
    (∀ L, query_knowledge_base supabase openai_client query 3 = some L →
        2 ≤ L.length →
        answer_from_company_kb supabase openai_client query =
          "Here's what I found in our knowledge base related to your query:\n\n"
            ++ String.intercalate "\n\n---\n\n" (L.map kb_block)) := by
  refine ⟨?_, ?_, ?_, ?_⟩
  · intro h
    simp [kb_block, dictGetD, h, Val.render]
  · intro h
    simp [kb_block, dictGetD, h, Val.render]
  · intro h
    simp [answer_from_company_kb, h]
  · intro L h hlen
    match L, hlen with
    | x :: y :: rest, _ =>
      simp [answer_from_company_kb, h]

/-- Witness for C10: an article with no title renders "N/A"; an article with
no content renders "No content available."; a concrete single-result search
shows the block inside the full answer. -/
theorem c10_kb_field_defaults_witness :
    kb_block [("content", Val.str "Only body")] =
      "Title: N/A\nContent: Only body" ∧
    kb_block [("title", Val.str "Only title")] =
      "Title: Only title\nContent: No content available." ∧
    answer_from_company_kb
        (some ⟨fun _ => Remote.ok none,
          fun _ _ _ => Remote.ok [[("content", Val.str "Only body")]],
          fun _ => Remote.ok [], fun _ => Remote.ok []⟩)
        (some ⟨fun _ => Remote.ok [1]⟩) "q" =
      "I found this in our knowledge base:\n\nTitle: N/A\nContent: Only body" := by
  refine ⟨?_, ?_, ?_⟩
  · exact ((c10_kb_field_defaults none none "q"
      [("content", Val.str "Only body")]).1 (by decide)).trans (by decide)
  · exact ((c10_kb_field_defaults none none "q"
      [("title", Val.str "Only title")]).2.1 (by decide)).trans (by decide)
  · exact ((c10_kb_field_defaults
      (some ⟨fun _ => Remote.ok none,
        fun _ _ _ => Remote.ok [[("content", Val.str "Only body")]],
        fun _ => Remote.ok [], fun _ => Remote.ok []⟩)
      (some ⟨fun _ => Remote.ok [1]⟩) "q"
      [("content", Val.str "Only body")]).2.2.1 rfl).trans (by decide)

/-- C7: the token endpoint rejects an invalid identity token with HTTP 401,
any other verification exception with HTTP 500, and a verified token lacking
a `uid` claim (keys configured) with HTTP 400 — and in each case the result
is an error, so no signed token is returned. -/
theorem c7_token_endpoint_failure_mapping
    (LIVEKIT_API_KEY LIVEKIT_API_SECRET : Option String)
    (verify : String → VerifyResult) (req : TokenRequest) :
    (∀ msg, verify req.firebase_id_token =
        VerifyResult.invalid_id_token msg →
        generate_livekit_token_endpoint LIVEKIT_API_KEY LIVEKIT_API_SECRET
          verify req = Except.error ⟨401, "Invalid Firebase ID token"⟩) ∧
    (∀ msg, verify req.firebase_id_token = VerifyResult.other_exn msg →
        generate_livekit_token_endpoint LIVEKIT_API_KEY LIVEKIT_API_SECRET
          verify req =
          Except.error ⟨500, "Error verifying Firebase ID token: " ++ msg⟩) ∧
    (∀ decoded, verify req.firebase_id_token = VerifyResult.ok decoded →
        optStrTruthy LIVEKIT_API_KEY = true →
        optStrTruthy LIVEKIT_API_SECRET = true →
        dictLookup decoded "uid" = none →
        generate_livekit_token_endpoint LIVEKIT_API_KEY LIVEKIT_API_SECRET
          verify req =
          Except.error ⟨400, "UID not found in Firebase token."⟩) := by
  refine ⟨?_, ?_, ?_⟩
  · intro msg h
    simp [generate_livekit_token_endpoint, verify_firebase_token, h]
  · intro msg h
    simp [generate_livekit_token_endpoint, verify_firebase_token, h]
  · intro decoded hv hk hs hu
    simp [generate_livekit_token_endpoint, verify_firebase_token, hv, hk,
      hs, hu]

/-- Witness for C7 at a concrete request: an invalid token yields 401, another
verification exception yields 500, and a valid token without `uid` yields
400. -/
theorem c7_token_endpoint_failure_mapping_witness :
    generate_livekit_token_endpoint (some "key") (some "secret")
        (fun _ => VerifyResult.invalid_id_token "expired")
        ⟨"tok", "room1"⟩ =
      Except.error ⟨401, "Invalid Firebase ID token"⟩ ∧
    generate_livekit_token_endpoint (some "key") (some "secret")
        (fun _ => VerifyResult.other_exn "boom") ⟨"tok", "room1"⟩ =
      Except.error ⟨500, "Error verifying Firebase ID token: boom"⟩ ∧
    generate_livekit_token_endpoint (some "key") (some "secret")
        (fun _ => VerifyResult.ok [("name", Val.str "Jo")])
        ⟨"tok", "room1"⟩ =
      Except.error ⟨400, "UID not found in Firebase token."⟩ := by
  refine ⟨?_, ?_, ?_⟩
  · exact (c7_token_endpoint_failure_mapping (some "key") (some "secret")
      (fun _ => VerifyResult.invalid_id_token "expired")
      ⟨"tok", "room1"⟩).1 "expired" rfl
  · exact ((c7_token_endpoint_failure_mapping (some "key") (some "secret")
      (fun _ => VerifyResult.other_exn "boom") ⟨"tok", "room1"⟩).2.1 "boom"
      rfl).trans rfl
  · exact (c7_token_endpoint_failure_mapping (some "key") (some "secret")
      (fun _ => VerifyResult.ok [("name", Val.str "Jo")])
      ⟨"tok", "room1"⟩).2.2 [("name", Val.str "Jo")] rfl rfl rfl
      (by decide)

/-- C8: on the success path (keys configured, token verified, truthy `uid`
claim), for every caller-supplied room name — the empty string included — the
issued grant fixes `room_join`, `can_publish` and `can_subscribe` to `true`
for that room, the signed token carries the verified uid as identity and the
`name` claim (falling back to the uid) as display name, and the response
pairs the signed token with the uid. -/
theorem c8_token_endpoint_success
    (LIVEKIT_API_KEY LIVEKIT_API_SECRET : Option String)
    (verify : String → VerifyResult) (req : TokenRequest) (decoded : Dict)
    (uid : Val) (hv : verify req.firebase_id_token = VerifyResult.ok decoded)
    (hk : optStrTruthy LIVEKIT_API_KEY = true)
    (hs : optStrTruthy LIVEKIT_API_SECRET = true)
    (hu : dictLookup decoded "uid" = some uid) (ht : uid.truthy = true) :
    generate_livekit_token_endpoint LIVEKIT_API_KEY LIVEKIT_API_SECRET
        verify req =
      Except.ok ⟨⟨some uid,
        some (match dictLookup decoded "name" with
          | some v => if v.truthy then v else uid
          | none => uid),
        some ⟨true, req.room_name, true, true⟩⟩, uid⟩ := by
  simp [generate_livekit_token_endpoint, verify_firebase_token, hv, hk, hs,
    hu, ht, AccessToken.new, AccessToken.with_identity, AccessToken.with_name,
    AccessToken.with_grants, AccessToken.to_jwt]

/-- Witness for C8 with an empty room name and no display-name claim: the
token is scoped to the empty room and the display name falls back to the
uid. -/
theorem c8_token_endpoint_success_witness :
    generate_livekit_token_endpoint (some "key") (some "secret")
        (fun _ => VerifyResult.ok [("uid", Val.str "u1")]) ⟨"tok", ""⟩ =
      Except.ok ⟨⟨some (Val.str "u1"), some (Val.str "u1"),
        some ⟨true, "", true, true⟩⟩, Val.str "u1"⟩ := by
  exact (c8_token_endpoint_success (some "key") (some "secret")
    (fun _ => VerifyResult.ok [("uid", Val.str "u1")]) ⟨"tok", ""⟩
    [("uid", Val.str "u1")] (Val.str "u1") rfl rfl rfl (by decide)
    (by decide)).trans rfl

end InstaVoice
